import Mathlib

/-
Shallow embedding of the session and delivery lifecycle layer of the
RNS-Flet-App template (src/rns_flet_app/rns.py, lxmf.py, lxst.py, app.py).

The transport substrate (RNS, LXMF, LXST libraries) is an external
collaborator; its behaviour at each call site is passed in explicitly as an
environment value (whether a constructor raises, what an identity lookup
returns, and so on).  Python byte strings are lists of naturals, Python
attribute presence is `Option`, and a caught exception is the `Except.error`
branch of the environment outcome.
-/

namespace RNSFlet

/-- Python byte strings, one natural (0..255) per byte. -/
abbrev Bytes := List Nat

/-- An opaque RNS identity object (keypair); only object identity matters
to the embedded control flow. -/
structure Identity where
  tag : Nat
deriving DecidableEq, Repr

/-! ## rns.py — RNSManager -/

/-- The mutable fields of `RNSManager` (rns.py, `__init__`). -/
structure RNSState where
  identity : Option Identity
  initialized : Bool
deriving DecidableEq, Repr

/-- `RNSManager.__init__`: no identity, not initialized. -/
def RNSState.start : RNSState := ⟨none, false⟩

/-- `RNSManager.initialize` (rns.py lines 15-28).

`env n` says whether the n-th substrate construction `RNS.Reticulum()`
succeeds (`true`) or raises `OSError`/`ValueError` (`false`); `count` is the
number of substrate constructions attempted so far.  Returns the boolean
return value, the new manager state and the new substrate-construction
count. -/
def rnsInitialize (env : Nat → Bool) (st : RNSState) (count : Nat) :
    Bool × RNSState × Nat :=
  if st.initialized then
    (true, st, count)
  else if env count then
    (true, { st with initialized := true }, count + 1)
  else
    (false, st, count + 1)

/-- Runs `n` successive calls of `RNSManager.initialize` starting from the
freshly constructed manager, collecting the list of return values, the final
state and the total number of substrate constructions attempted. -/
def rnsInitializeRuns (env : Nat → Bool) : Nat → List Bool × RNSState × Nat
  | 0 => ([], RNSState.start, 0)
  | n + 1 =>
    let out := rnsInitializeRuns env n
    let step := rnsInitialize env out.2.1 out.2.2
    (out.1 ++ [step.1], step.2.1, step.2.2)

/-- Effects `RNSManager.create_identity` can perform on the substrate and
filesystem, in order of occurrence. -/
inductive IdEffect
  | fromFileCall
  | generateCall
  | makedirsCall
  | toFileCall
deriving DecidableEq, Repr

/-- Environment for one call of `RNSManager.create_identity` (rns.py lines
30-55): whether the identity file exists, what `RNS.Identity.from_file`
does (`error` = raises, `ok v` = returns `v`, which the substrate may make
`none`), the fresh identity `RNS.Identity()` would produce, and whether
`os.makedirs` or `Identity.to_file` raise. -/
structure IdentityEnv where
  fileExists : Bool
  fromFileResult : Except Unit (Option Identity)
  freshIdentity : Identity
  makedirsRaises : Bool
  toFileRaises : Bool
deriving Repr

/-- `RNSManager.create_identity` (rns.py lines 30-55).  Returns the returned
identity (or `none` on failure), the new manager state, and the trace of
substrate/filesystem effects performed. -/
def createIdentity (env : IdentityEnv) (st : RNSState) :
    Option Identity × RNSState × List IdEffect :=
  if env.fileExists then
    match env.fromFileResult with
    | .error _ => (none, st, [.fromFileCall])
    | .ok ident => (ident, { st with identity := ident }, [.fromFileCall])
  else
    let st1 := { st with identity := some env.freshIdentity }
    if env.makedirsRaises then
      (none, st1, [.generateCall, .makedirsCall])
    else if env.toFileRaises then
      (none, st1, [.generateCall, .makedirsCall, .toFileCall])
    else
      (some env.freshIdentity, st1, [.generateCall, .makedirsCall, .toFileCall])

/-! ### Theorems about rns.py -/

/-- After `n ≥ 1` calls with a first substrate construction that succeeds,
every call so far returned `true` and exactly one substrate construction was
attempted. -/
theorem rnsInitializeRuns_spec (env : Nat → Bool) (h0 : env 0 = true) :
    ∀ n : Nat, 1 ≤ n →
      (rnsInitializeRuns env n).1 = List.replicate n true ∧
      (rnsInitializeRuns env n).2.1.initialized = true ∧
      (rnsInitializeRuns env n).2.2 = 1 := by
  intro n hn
  induction n with
  | zero => omega
  | succ m ih =>
    cases Nat.eq_or_lt_of_le hn with
    | inl h1 =>
      have hm : m = 0 := by omega
      subst hm
      simp [rnsInitializeRuns, rnsInitialize, RNSState.start, h0]
    | inr h1 =>
      have hm : 1 ≤ m := by omega
      obtain ⟨hr, hi, hc⟩ := ih hm
      refine ⟨?_, ?_, ?_⟩ <;>
        simp [rnsInitializeRuns, rnsInitialize, hr, hi, hc,
          List.replicate_succ' (n := m)]

/-- C3: `initializeNetwork` is idempotent.  Provided the first substrate
initialization succeeds, any sequence of two or more calls to
`RNSManager.initialize` returns success every time, and the substrate is
constructed at most once across the whole sequence. -/
theorem initialize_idempotent (env : Nat → Bool) (h0 : env 0 = true)
    (n : Nat) (hn : 2 ≤ n) :
    (rnsInitializeRuns env n).1 = List.replicate n true ∧
    (rnsInitializeRuns env n).2.2 ≤ 1 := by
  obtain ⟨hr, _, hc⟩ := rnsInitializeRuns_spec env h0 n (by omega)
  exact ⟨hr, by omega⟩

/-- Witness for C3: two calls in an environment whose substrate construction
succeeds both return `true`, with at most one substrate construction. -/
theorem initialize_idempotent_witness :
    (rnsInitializeRuns (fun _ => true) 2).1 = List.replicate 2 true ∧
    (rnsInitializeRuns (fun _ => true) 2).2.2 ≤ 1 :=
  initialize_idempotent (fun _ => true) rfl 2 (by decide)

/-- C4: if the persisted identity file exists but deserializing it fails
(`Identity.from_file` raises, or yields no identity), `create_identity`
returns `none` to the caller and neither generates a new identity nor
persists anything over the existing file. -/
theorem createIdentity_no_fabrication (env : IdentityEnv) (st : RNSState)
    (hfile : env.fileExists = true)
    (hbad : env.fromFileResult = .error () ∨ env.fromFileResult = .ok none) :
    (createIdentity env st).1 = none ∧
    IdEffect.generateCall ∉ (createIdentity env st).2.2 ∧
    IdEffect.toFileCall ∉ (createIdentity env st).2.2 := by
  cases hbad with
  | inl h => simp [createIdentity, hfile, h]
  | inr h => simp [createIdentity, hfile, h]

/-- Witness for C4: a concrete environment with an existing file whose
deserialization raises. -/
theorem createIdentity_no_fabrication_witness :
    (createIdentity ⟨true, .error (), ⟨7⟩, false, false⟩ RNSState.start).1 = none ∧
    IdEffect.generateCall ∉ (createIdentity ⟨true, .error (), ⟨7⟩, false, false⟩ RNSState.start).2.2 ∧
    IdEffect.toFileCall ∉ (createIdentity ⟨true, .error (), ⟨7⟩, false, false⟩ RNSState.start).2.2 :=
  createIdentity_no_fabrication ⟨true, .error (), ⟨7⟩, false, false⟩ RNSState.start rfl (.inl rfl)

/-! ## lxmf.py — LXMFManager -/

/-- `RNS.Destination.IN` / `RNS.Destination.OUT`. -/
inductive Direction
  | inbound
  | outbound
deriving DecidableEq, Repr

/-- An `RNS.Destination(identity, direction, SINGLE, appName, *aspects)`
object.  The destination type is always `SINGLE` in this code base, so it is
not a field. -/
structure Destination where
  identity : Identity
  direction : Direction
  appName : String
  aspects : List String
deriving DecidableEq, Repr

/-- An opaque `LXMF.LXMRouter` object. -/
structure Router where
  tag : Nat
deriving DecidableEq, Repr

/-- The mutable fields of `LXMFManager` (lxmf.py, `__init__`); the string
`storage_path` bookkeeping has no bearing on any behaviour modelled here and
is omitted. -/
structure LXMFState where
  router : Option Router
  identity : Option Identity
  destination : Option Destination
deriving DecidableEq, Repr

/-- `LXMFManager.__init__`: everything unset. -/
def LXMFState.start : LXMFState := ⟨none, none, none⟩

/-- `LXMF.LXMessage` desired delivery method. -/
inductive DeliveryMethod
  | direct
  | propagated
deriving DecidableEq, Repr

/-- The optional structured field map of an LXMF message. -/
abbrev Fields := List (String × String)

/-- An `LXMF.LXMessage` as constructed by `create_message` (lxmf.py lines
108-119). -/
structure LXMessage where
  lxmfDestination : Destination
  sourceDestination : Destination
  content : String
  title : String
  desiredMethod : DeliveryMethod
  tryPropagationOnFail : Bool
  fields : Fields
deriving DecidableEq, Repr

/-- `RNS.Reticulum.TRUNCATED_HASHLENGTH` (bits); destination hashes are
`TRUNCATED_HASHLENGTH / 8 = 16` bytes. -/
def TRUNCATED_HASHLENGTH : Nat := 128

/-- The diagnostics `create_message` prints, one constructor per `print`
branch (lxmf.py lines 78, 89, 95-97, 123). -/
inductive CMLog
  | destNotInitialized
  | invalidLength (n : Nat)
  | identityUnknownPathRequested
  | createFailed
deriving DecidableEq, Repr

/-- The observable outcome of one `create_message` call: the returned value
(`none` on every failure), the printed diagnostics, and whether
`RNS.Transport.request_path` was invoked. -/
structure CMResult where
  result : Option LXMessage
  log : List CMLog
  pathRequested : Bool
deriving DecidableEq, Repr

/-- `LXMFManager.create_message` (lxmf.py lines 64-127) on a bytes-typed
destination hash.  `recallId` is the substrate lookup `RNS.Identity.recall`;
`lxmessageRaises` says whether the `LXMF.LXMessage` constructor raises.  The
`isinstance(destination_hash, str)` branch (lines 81-86) only normalizes a
hex string to bytes and is outside the bytes-input behaviour modelled
here. -/
def createMessage (st : LXMFState) (recallId : Bytes → Option Identity)
    (lxmessageRaises : Bool) (destinationHash : Bytes) (content : String)
    (title : Option String) (fields : Option Fields) : CMResult :=
  match st.destination with
  | none => ⟨none, [.destNotInitialized], false⟩
  | some selfDest =>
    if destinationHash.length = TRUNCATED_HASHLENGTH / 8 then
      match recallId destinationHash with
      | none => ⟨none, [.identityUnknownPathRequested], true⟩
      | some ident =>
        let lxmfDest : Destination := ⟨ident, .outbound, "lxmf", ["delivery"]⟩
        if lxmessageRaises then
          ⟨none, [.createFailed], false⟩
        else
          -- `title=title if title else ""`: a missing or empty (falsy) title
          -- becomes ""; `if fields: message.fields = fields`: a missing or
          -- empty (falsy) map leaves the default empty map.
          ⟨some ⟨lxmfDest, selfDest, content, title.getD "", .direct, true,
              (fields.getD [])⟩,
            [], false⟩
    else
      ⟨none, [.invalidLength destinationHash.length], false⟩

/-- Whether a `create_message` outcome is the invalid-address (bad length)
failure, identified by its diagnostic. -/
def CMResult.invalidAddress (r : CMResult) : Bool :=
  r.log.any (fun e => match e with | .invalidLength _ => true | _ => false)

/-- Environment for one call of `LXMFManager.initialize` (lxmf.py lines
18-62): whether `os.makedirs` raises, what the `LXMF.LXMRouter` constructor
does, what `register_delivery_identity` does (`error` = raises, `ok v` =
returns `v`, possibly a falsy `none`), the router's `delivery_destinations`
values, and whether the fallback `RNS.Destination` constructor raises. -/
structure LXMFInitEnv where
  makedirsRaises : Bool
  routerCtor : Except Unit Router
  registerResult : Except Unit (Option Destination)
  deliveryDestinations : List Destination
  fallbackCtorRaises : Bool

/-- `LXMFManager.initialize` (lxmf.py lines 18-62).  Field assignments
happen in source order, so an exception after `self.router` is assigned
leaves the router set while later fields keep their previous values. -/
def lxmfInitialize (st : LXMFState) (env : LXMFInitEnv) (ident : Identity)
    (destinationName : String) : Bool × LXMFState :=
  if env.makedirsRaises then
    (false, st)
  else
    match env.routerCtor with
    | .error _ => (false, st)
    | .ok r =>
      let st1 := { st with router := some r }
      match env.registerResult with
      | .error _ => (false, st1)
      | .ok regDest =>
        let st2 := { st1 with destination := regDest }
        match regDest with
        | some _ => (true, { st2 with identity := some ident })
        | none =>
          match env.deliveryDestinations with
          | d :: _ =>
            (true, { st2 with destination := some d, identity := some ident })
          | [] =>
            if env.fallbackCtorRaises then
              (false, st2)
            else
              (true, { st2 with
                destination := some ⟨ident, .inbound, destinationName, []⟩,
                identity := some ident })

/-- The observable outcome of one `send_message` call: the boolean return
value and whether the message was handed to `router.handle_outbound`. -/
structure SendResult where
  ok : Bool
  handedToRouter : Bool
deriving DecidableEq, Repr

/-- `LXMFManager.send_message` (lxmf.py lines 129-147).
`handleOutboundRaises` says whether `router.handle_outbound` raises (the
exception is caught and turned into a `false` return). -/
def sendMessage (st : LXMFState) (handleOutboundRaises : Bool)
    (message : LXMessage) : SendResult :=
  match st.router with
  | some _ =>
    if handleOutboundRaises then ⟨false, true⟩ else ⟨true, true⟩
  | none => ⟨false, false⟩

/-! ### Theorems about lxmf.py -/

/-- C1: with the manager's delivery destination initialized, `create_message`
on a bytes destination hash of length other than 16 returns the failure
outcome with the invalid-address diagnostic, constructs no message and
requests no path; on a 16-byte hash the length validation passes (the
invalid-address failure cannot occur), whatever the identity lookup says. -/
theorem createMessage_length_validation (st : LXMFState)
    (recallId : Bytes → Option Identity) (lxr : Bool) (dh : Bytes)
    (content : String) (title : Option String) (fields : Option Fields)
    (hdest : st.destination.isSome = true) :
    (dh.length ≠ 16 →
      (createMessage st recallId lxr dh content title fields).result = none ∧
      (createMessage st recallId lxr dh content title fields).invalidAddress = true ∧
      (createMessage st recallId lxr dh content title fields).pathRequested = false) ∧
    (dh.length = 16 →
      (createMessage st recallId lxr dh content title fields).invalidAddress = false) := by
  obtain ⟨d, hd⟩ := Option.isSome_iff_exists.mp hdest
  constructor
  · intro hlen
    have h16 : ¬ dh.length = TRUNCATED_HASHLENGTH / 8 := by
      simpa [TRUNCATED_HASHLENGTH] using hlen
    simp [createMessage, hd, h16, CMResult.invalidAddress]
  · intro hlen
    have h16 : dh.length = TRUNCATED_HASHLENGTH / 8 := by
      simpa [TRUNCATED_HASHLENGTH] using hlen
    rcases hrec : recallId dh with _ | ident <;>
      cases lxr <;>
        simp [createMessage, hd, h16, hrec, CMResult.invalidAddress]

/-- Witness for C1: a concrete initialized manager, a 3-byte hash (rejected
with the invalid-address diagnostic) and the same conclusion instantiated. -/
theorem createMessage_length_validation_witness :
    ((List.replicate 3 0 : Bytes).length ≠ 16 →
      (createMessage ⟨some ⟨0⟩, some ⟨0⟩, some ⟨⟨0⟩, .inbound, "rns_flet_app", []⟩⟩
        (fun _ => none) false (List.replicate 3 0) "hello" (some "hi") none).result = none ∧
      (createMessage ⟨some ⟨0⟩, some ⟨0⟩, some ⟨⟨0⟩, .inbound, "rns_flet_app", []⟩⟩
        (fun _ => none) false (List.replicate 3 0) "hello" (some "hi") none).invalidAddress = true ∧
      (createMessage ⟨some ⟨0⟩, some ⟨0⟩, some ⟨⟨0⟩, .inbound, "rns_flet_app", []⟩⟩
        (fun _ => none) false (List.replicate 3 0) "hello" (some "hi") none).pathRequested = false) ∧
    ((List.replicate 3 0 : Bytes).length = 16 →
      (createMessage ⟨some ⟨0⟩, some ⟨0⟩, some ⟨⟨0⟩, .inbound, "rns_flet_app", []⟩⟩
        (fun _ => none) false (List.replicate 3 0) "hello" (some "hi") none).invalidAddress = false) :=
  createMessage_length_validation
    ⟨some ⟨0⟩, some ⟨0⟩, some ⟨⟨0⟩, .inbound, "rns_flet_app", []⟩⟩
    (fun _ => none) false (List.replicate 3 0) "hello" (some "hi") none rfl

/-- Counterexample for C2: the caller-visible outcome of `create_message`
with an unresolvable 16-byte destination hash is `none` — literally the same
value as for the terminal invalid-length failure — so the recoverable
identity-unknown failure is a generic failure indistinguishable (by return
value) from a terminal one, contradicting the claimed distinct error. -/
theorem createMessage_unresolved_outcome_generic :
    (createMessage ⟨some ⟨0⟩, some ⟨0⟩, some ⟨⟨0⟩, .inbound, "rns_flet_app", []⟩⟩
      (fun _ => none) false (List.replicate 16 0) "hello" (some "hi") none).result = none ∧
    (createMessage ⟨some ⟨0⟩, some ⟨0⟩, some ⟨⟨0⟩, .inbound, "rns_flet_app", []⟩⟩
      (fun _ => none) false (List.replicate 3 0) "hello" (some "hi") none).result = none ∧
    (createMessage ⟨some ⟨0⟩, some ⟨0⟩, some ⟨⟨0⟩, .inbound, "rns_flet_app", []⟩⟩
        (fun _ => none) false (List.replicate 16 0) "hello" (some "hi") none).result =
      (createMessage ⟨some ⟨0⟩, some ⟨0⟩, some ⟨⟨0⟩, .inbound, "rns_flet_app", []⟩⟩
        (fun _ => none) false (List.replicate 3 0) "hello" (some "hi") none).result := by
  refine ⟨?_, ?_, ?_⟩ <;> rfl

/-- C2 (amended): with the manager initialized, a 16-byte destination hash
whose identity the lookup cannot resolve makes `create_message` request a
path from the transport and fail by returning `none` — the generic failure
return shared with every other failure; only the printed diagnostic and the
path-request side effect identify the identity-unknown case. -/
theorem createMessage_unresolved_requests_path (st : LXMFState)
    (recallId : Bytes → Option Identity) (lxr : Bool) (dh : Bytes)
    (content : String) (title : Option String) (fields : Option Fields)
    (hdest : st.destination.isSome = true) (hlen : dh.length = 16)
    (hrec : recallId dh = none) :
    (createMessage st recallId lxr dh content title fields).result = none ∧
    (createMessage st recallId lxr dh content title fields).pathRequested = true ∧
    (createMessage st recallId lxr dh content title fields).log =
      [CMLog.identityUnknownPathRequested] := by
  obtain ⟨d, hd⟩ := Option.isSome_iff_exists.mp hdest
  have h16 : dh.length = TRUNCATED_HASHLENGTH / 8 := by
    simpa [TRUNCATED_HASHLENGTH] using hlen
  simp [createMessage, hd, h16, hrec]

/-- Witness for C2 (amended): concrete unresolvable all-zero 16-byte hash. -/
theorem createMessage_unresolved_requests_path_witness :
    (createMessage ⟨some ⟨0⟩, some ⟨0⟩, some ⟨⟨0⟩, .inbound, "rns_flet_app", []⟩⟩
      (fun _ => none) false (List.replicate 16 0) "hello" (some "hi") none).result = none ∧
    (createMessage ⟨some ⟨0⟩, some ⟨0⟩, some ⟨⟨0⟩, .inbound, "rns_flet_app", []⟩⟩
      (fun _ => none) false (List.replicate 16 0) "hello" (some "hi") none).pathRequested = true ∧
    (createMessage ⟨some ⟨0⟩, some ⟨0⟩, some ⟨⟨0⟩, .inbound, "rns_flet_app", []⟩⟩
      (fun _ => none) false (List.replicate 16 0) "hello" (some "hi") none).log =
      [CMLog.identityUnknownPathRequested] :=
  createMessage_unresolved_requests_path
    ⟨some ⟨0⟩, some ⟨0⟩, some ⟨⟨0⟩, .inbound, "rns_flet_app", []⟩⟩
    (fun _ => none) false (List.replicate 16 0) "hello" (some "hi") none rfl rfl rfl

/-- Counterexample for C5: a manager state with a router but no registered
delivery destination is reachable — `initialize` assigns `self.router` and
then `register_delivery_identity` raises — and in that state `send_message`
returns success even though no delivery destination is registered, so
`send` does not fail whenever no delivery destination is registered. -/
theorem sendMessage_succeeds_without_destination :
    (lxmfInitialize LXMFState.start
        ⟨false, .ok ⟨0⟩, .error (), [], false⟩ ⟨0⟩ "rns_flet_app").2.destination = none ∧
    (sendMessage (lxmfInitialize LXMFState.start
        ⟨false, .ok ⟨0⟩, .error (), [], false⟩ ⟨0⟩ "rns_flet_app").2 false
      ⟨⟨⟨0⟩, .outbound, "lxmf", ["delivery"]⟩, ⟨⟨0⟩, .inbound, "rns_flet_app", []⟩,
        "hello", "hi", .direct, true, []⟩).ok = true := by
  exact ⟨rfl, rfl⟩

/-- C5 (amended): `send_message` fails exactly when the router is absent or
the outbound handoff raises; in particular it fails whenever the router is
not initialized, and a `true` return only means the message was handed to
the router's outbound path (submission) — the return value does not depend
on, or report, any delivery outcome. -/
theorem sendMessage_router_guard (st : LXMFState) (hor : Bool)
    (message : LXMessage) :
    ((sendMessage st hor message).ok = true ↔
      st.router.isSome = true ∧ hor = false) ∧
    (st.router = none → (sendMessage st hor message).ok = false) ∧
    ((sendMessage st hor message).ok = true →
      (sendMessage st hor message).handedToRouter = true) := by
  rcases hr : st.router with _ | r <;> cases hor <;>
    simp [sendMessage, hr]

/-- Witness for C5 (amended): the guard instantiated at a router-less
manager state and a concrete message. -/
theorem sendMessage_router_guard_witness :
    ((sendMessage LXMFState.start false
        ⟨⟨⟨0⟩, .outbound, "lxmf", ["delivery"]⟩, ⟨⟨0⟩, .inbound, "rns_flet_app", []⟩,
          "hello", "hi", .direct, true, []⟩).ok = true ↔
      LXMFState.start.router.isSome = true ∧ false = false) ∧
    (LXMFState.start.router = none →
      (sendMessage LXMFState.start false
        ⟨⟨⟨0⟩, .outbound, "lxmf", ["delivery"]⟩, ⟨⟨0⟩, .inbound, "rns_flet_app", []⟩,
          "hello", "hi", .direct, true, []⟩).ok = false) ∧
    ((sendMessage LXMFState.start false
        ⟨⟨⟨0⟩, .outbound, "lxmf", ["delivery"]⟩, ⟨⟨0⟩, .inbound, "rns_flet_app", []⟩,
          "hello", "hi", .direct, true, []⟩).ok = true →
      (sendMessage LXMFState.start false
        ⟨⟨⟨0⟩, .outbound, "lxmf", ["delivery"]⟩, ⟨⟨0⟩, .inbound, "rns_flet_app", []⟩,
          "hello", "hi", .direct, true, []⟩).handedToRouter = true) :=
  sendMessage_router_guard LXMFState.start false
    ⟨⟨⟨0⟩, .outbound, "lxmf", ["delivery"]⟩, ⟨⟨0⟩, .inbound, "rns_flet_app", []⟩,
      "hello", "hi", .direct, true, []⟩

/-! ## lxst.py — LXSTManager -/

/-- Lifecycle state of an `LXST.Pipeline` session (spec data model:
created, running, stopped). -/
inductive PipelineState
  | created
  | running
  | stopped
deriving DecidableEq, Repr

/-- Modelled from the spec: `LXST.Pipeline` is an external collaborator not
present under src/.  Its lifecycle state is `{created, running, stopped}`;
`stopRaises` models a substrate-level fault that makes its `stop()` method
raise when invoked (the misbehaving-peer case the manager must survive). -/
structure Pipeline where
  pstate : PipelineState
  stopRaises : Bool
deriving DecidableEq, Repr

/-- Modelled from the spec: the `active` attribute lxst.py reads via
`getattr`; a pipeline is active exactly while running. -/
def Pipeline.active (p : Pipeline) : Bool := p.pstate = PipelineState.running

/-- Modelled from the spec: the external `Pipeline.stop()` primitive.
It transitions the pipeline to `stopped` (a no-op when already stopped)
unless the substrate fault makes it raise. -/
def Pipeline.stopCall (p : Pipeline) : Except Unit Pipeline :=
  if p.stopRaises then .error () else .ok { p with pstate := .stopped }

/-- The kinds of audio source lxst.py can construct. -/
inductive SourceKind
  | localSource
  | remoteSource
  | opusFileSource
deriving DecidableEq, Repr

/-- A constructed LXST source object. -/
structure SourceObj where
  kind : SourceKind
  uid : Nat
deriving DecidableEq, Repr

/-- The kinds of audio sink lxst.py can construct. -/
inductive SinkKind
  | localSink
  | remoteSink
  | nullSink
deriving DecidableEq, Repr

/-- A constructed LXST sink object. -/
structure SinkObj where
  kind : SinkKind
  uid : Nat
deriving DecidableEq, Repr

/-- The mutable registries of `LXSTManager` (lxst.py, `__init__`).  Python
keys registries by `id(obj)`, unique per live object; `nextUid` models the
allocator of those unique ids.  The `identity`/`destination` fields play no
role in the registry operations modelled here and are omitted. -/
structure LXSTState where
  sources : List (String × SourceObj)
  sinks : List (String × SinkObj)
  pipelines : List (String × Pipeline)
  nextUid : Nat
deriving DecidableEq, Repr

/-- `LXSTManager.__init__`: empty registries. -/
def LXSTState.start : LXSTState := ⟨[], [], [], 0⟩

/-- `LXSTManager.create_audio_source` (lxst.py lines 46-72).  The
`source_type` string is dispatched exactly as in the source; an unknown
type is rejected before any constructor runs, so `ctorRaises` (a raising
LXST constructor) is only consulted on known kinds.  Registration happens
only after successful construction. -/
def createAudioSource (st : LXSTState) (ctorRaises : Bool)
    (sourceType : String) : Option SourceObj × LXSTState :=
  let chosen : Option SourceKind :=
    if sourceType = "local" then some .localSource
    else if sourceType = "remote" then some .remoteSource
    else if sourceType = "file" then some .opusFileSource
    else none
  match chosen with
  | none => (none, st)
  | some k =>
    if ctorRaises then
      (none, st)
    else
      let src : SourceObj := ⟨k, st.nextUid⟩
      (some src,
        { st with
          sources := ("source_" ++ toString st.nextUid, src) :: st.sources,
          nextUid := st.nextUid + 1 })

/-- `LXSTManager.create_audio_sink` (lxst.py lines 74-100), same shape as
`createAudioSource` with kinds local, remote and null. -/
def createAudioSink (st : LXSTState) (ctorRaises : Bool)
    (sinkType : String) : Option SinkObj × LXSTState :=
  let chosen : Option SinkKind :=
    if sinkType = "local" then some .localSink
    else if sinkType = "remote" then some .remoteSink
    else if sinkType = "null" then some .nullSink
    else none
  match chosen with
  | none => (none, st)
  | some k =>
    if ctorRaises then
      (none, st)
    else
      let snk : SinkObj := ⟨k, st.nextUid⟩
      (some snk,
        { st with
          sinks := ("sink_" ++ toString st.nextUid, snk) :: st.sinks,
          nextUid := st.nextUid + 1 })

/-- `LXSTManager.stop_pipeline` (lxst.py lines 138-152): delegates to the
pipeline's `stop()` inside try/except; a raise is caught and reported as a
`false` return, with the pipeline as the substrate left it. -/
def stopPipeline (p : Pipeline) : Bool × Pipeline :=
  match p.stopCall with
  | .ok p1 => (true, p1)
  | .error _ => (false, p)

/-- Python dict lookup `self.pipelines[pipeline_id]` /
`pipeline_id in self.pipelines`. -/
def lookupPipeline (ps : List (String × Pipeline)) (pid : String) :
    Option Pipeline :=
  match ps with
  | [] => none
  | kv :: rest => if kv.1 = pid then some kv.2 else lookupPipeline rest pid

/-- Python dict deletion `del self.pipelines[pipeline_id]` (keys are unique,
so removing every binding of the key is dict-faithful). -/
def erasePipeline (ps : List (String × Pipeline)) (pid : String) :
    List (String × Pipeline) :=
  ps.filter (fun kv => kv.1 != pid)

/-- `LXSTManager.close_pipeline` (lxst.py lines 215-234): for a registered
id, stop the pipeline first when it is active, then delete it from the
registry; an exception from `stop()` is caught and reported as `false`,
leaving the registry untouched.  An unknown id returns `false` with the
registry untouched. -/
def closePipeline (st : LXSTState) (pid : String) : Bool × LXSTState :=
  match lookupPipeline st.pipelines pid with
  | some p =>
    if p.active then
      match p.stopCall with
      | .ok _ =>
        (true, { st with pipelines := erasePipeline st.pipelines pid })
      | .error _ => (false, st)
    else
      (true, { st with pipelines := erasePipeline st.pipelines pid })
  | none => (false, st)

/-! ### Theorems about lxst.py -/

/-- Looking a key up after erasing it finds nothing. -/
theorem lookupPipeline_erase (ps : List (String × Pipeline)) (pid : String) :
    lookupPipeline (erasePipeline ps pid) pid = none := by
  induction ps with
  | nil => rfl
  | cons kv rest ih =>
    by_cases h : kv.1 = pid
    · have he : erasePipeline (kv :: rest) pid = erasePipeline rest pid := by
        simp [erasePipeline, List.filter_cons, h]
      rw [he]
      exact ih
    · have he : erasePipeline (kv :: rest) pid = kv :: erasePipeline rest pid := by
        simp [erasePipeline, List.filter_cons, h]
      rw [he]
      simp [lookupPipeline, h, ih]

/-- C6: `close_pipeline` on an id absent from the registry fails and leaves
the whole manager state unchanged; consequently a second close of an id
whose first close succeeded (and therefore removed it) fails and changes
nothing. -/
theorem closePipeline_unknown_fails (st : LXSTState) (pid : String) :
    (lookupPipeline st.pipelines pid = none →
      closePipeline st pid = (false, st)) ∧
    (∀ st1 : LXSTState, closePipeline st pid = (true, st1) →
      closePipeline st1 pid = (false, st1)) := by
  constructor
  · intro h
    simp [closePipeline, h]
  · intro st1 h
    have hpipes : st1.pipelines = erasePipeline st.pipelines pid := by
      rcases hl : lookupPipeline st.pipelines pid with _ | p
      · simp [closePipeline, hl] at h
      · by_cases ha : p.active = true
        · rcases hs : p.stopCall with u | p1
          · simp [closePipeline, hl, ha, hs] at h
          · simp [closePipeline, hl, ha, hs] at h
            rw [← h]
        · simp [closePipeline, hl, ha] at h
          rw [← h]
    have hnone : lookupPipeline st1.pipelines pid = none := by
      rw [hpipes]; exact lookupPipeline_erase st.pipelines pid
    simp [closePipeline, hnone]

/-- Witness for C6: closing an id on the empty registry fails, and the
second-close implication holds at that concrete state. -/
theorem closePipeline_unknown_fails_witness :
    (lookupPipeline LXSTState.start.pipelines "pipeline_1" = none →
      closePipeline LXSTState.start "pipeline_1" = (false, LXSTState.start)) ∧
    (∀ st1 : LXSTState,
      closePipeline LXSTState.start "pipeline_1" = (true, st1) →
      closePipeline st1 "pipeline_1" = (false, st1)) :=
  closePipeline_unknown_fails LXSTState.start "pipeline_1"

/-- C7: for a pipeline whose substrate `stop()` does not fault,
`stop_pipeline` on an already-stopped pipeline returns success and leaves
the pipeline exactly as it was, and applying `stop_pipeline` twice yields
the same return value and the same final pipeline as applying it once. -/
theorem stopPipeline_idempotent (p : Pipeline) (hok : p.stopRaises = false) :
    (p.pstate = PipelineState.stopped → stopPipeline p = (true, p)) ∧
    (stopPipeline (stopPipeline p).2).1 = (stopPipeline p).1 ∧
    (stopPipeline (stopPipeline p).2).2 = (stopPipeline p).2 := by
  obtain ⟨ps, pr⟩ := p
  subst hok
  refine ⟨?_, ?_, ?_⟩
  · intro h
    simp only at h
    subst h
    simp [stopPipeline, Pipeline.stopCall]
  · cases ps <;> simp [stopPipeline, Pipeline.stopCall]
  · cases ps <;> simp [stopPipeline, Pipeline.stopCall]

/-- Witness for C7: a concrete already-stopped, non-faulting pipeline. -/
theorem stopPipeline_idempotent_witness :
    ((⟨PipelineState.stopped, false⟩ : Pipeline).pstate = PipelineState.stopped →
      stopPipeline ⟨PipelineState.stopped, false⟩ =
        (true, ⟨PipelineState.stopped, false⟩)) ∧
    (stopPipeline (stopPipeline ⟨PipelineState.stopped, false⟩).2).1 =
      (stopPipeline ⟨PipelineState.stopped, false⟩).1 ∧
    (stopPipeline (stopPipeline ⟨PipelineState.stopped, false⟩).2).2 =
      (stopPipeline ⟨PipelineState.stopped, false⟩).2 :=
  stopPipeline_idempotent ⟨PipelineState.stopped, false⟩ rfl

/-- C8: a source type outside local/remote/file, and a sink type outside
local/remote/null, are rejected: `create_audio_source` /
`create_audio_sink` return `none` and leave the manager state — in
particular the handle registries — completely unchanged. -/
theorem createKind_unknown_rejected (st : LXSTState) (e1 e2 : Bool)
    (ts tk : String)
    (hs : ts ∉ (["local", "remote", "file"] : List String))
    (hk : tk ∉ (["local", "remote", "null"] : List String)) :
    createAudioSource st e1 ts = (none, st) ∧
    createAudioSink st e2 tk = (none, st) := by
  simp only [List.mem_cons, List.not_mem_nil, or_false, not_or] at hs hk
  constructor
  · simp [createAudioSource, hs.1, hs.2.1, hs.2.2]
  · simp [createAudioSink, hk.1, hk.2.1, hk.2.2]

/-- Witness for C8: the unknown kind "opus" is rejected for both sources
and sinks on the fresh manager state. -/
theorem createKind_unknown_rejected_witness :
    createAudioSource LXSTState.start false "opus" = (none, LXSTState.start) ∧
    createAudioSink LXSTState.start false "opus" = (none, LXSTState.start) :=
  createKind_unknown_rejected LXSTState.start false false "opus" "opus"
    (by decide) (by decide)

/-- C10: `close_pipeline` is atomic on error.  For a registered, active
pipeline: if its substrate `stop()` raises, the call reports failure and the
manager state — the registry included — is exactly unchanged; if `stop()`
completes, the call succeeds and the id is removed.  Removal therefore
happens only when the stop step completes without error. -/
theorem closePipeline_atomic (st : LXSTState) (pid : String) (p : Pipeline)
    (hl : lookupPipeline st.pipelines pid = some p) (ha : p.active = true) :
    (p.stopRaises = true → closePipeline st pid = (false, st)) ∧
    (p.stopRaises = false →
      closePipeline st pid =
        (true, { st with pipelines := erasePipeline st.pipelines pid })) := by
  constructor
  · intro hr
    simp [closePipeline, hl, ha, Pipeline.stopCall, hr]
  · intro hr
    simp [closePipeline, hl, ha, Pipeline.stopCall, hr]

/-- Witness for C10: a registry holding one running pipeline whose `stop()`
raises; closing reports failure and the state is unchanged. -/
theorem closePipeline_atomic_witness :
    ((⟨PipelineState.running, true⟩ : Pipeline).stopRaises = true →
      closePipeline ⟨[], [], [("pipeline_1", ⟨PipelineState.running, true⟩)], 0⟩
          "pipeline_1" =
        (false, ⟨[], [], [("pipeline_1", ⟨PipelineState.running, true⟩)], 0⟩)) ∧
    ((⟨PipelineState.running, true⟩ : Pipeline).stopRaises = false →
      closePipeline ⟨[], [], [("pipeline_1", ⟨PipelineState.running, true⟩)], 0⟩
          "pipeline_1" =
        (true, { (⟨[], [], [("pipeline_1", ⟨PipelineState.running, true⟩)], 0⟩ : LXSTState) with
            pipelines := erasePipeline
              [("pipeline_1", ⟨PipelineState.running, true⟩)] "pipeline_1" })) :=
  closePipeline_atomic
    ⟨[], [], [("pipeline_1", ⟨PipelineState.running, true⟩)], 0⟩
    "pipeline_1" ⟨PipelineState.running, true⟩ rfl rfl

/-! ## app.py — inbound delivery callback -/

/-- A Python value that may be a byte string or some other object; for the
latter only its `str()` rendering and truthiness matter to app.py. -/
inductive PyVal
  | pyBytes (b : Bytes)
  | pyObj (s : String) (truthy : Bool)
deriving DecidableEq, Repr

/-- Python truthiness of such a value (`b""` is falsy). -/
def PyVal.truthyVal : PyVal → Bool
  | .pyBytes b => !b.isEmpty
  | .pyObj _ t => t

/-- `bytes.decode("utf-8")` as used by app.py, `none` when it raises. -/
def utf8Decode (b : Bytes) : Option String :=
  String.fromUTF8? (ByteArray.mk (Array.mk (b.map (fun n => UInt8.ofNat n))))

/-- Lowercase hexadecimal digit. -/
def hexDigit (n : Nat) : Char :=
  if n < 10 then Char.ofNat (48 + n) else Char.ofNat (87 + n)

/-- Two lowercase hex digits of one byte. -/
def byteHex (n : Nat) : String :=
  String.mk [hexDigit (n / 16 % 16), hexDigit (n % 16)]

/-- `bytes.hex()`. -/
def bytesHex (b : Bytes) : String :=
  String.join (b.map byteHex)

/-- One byte of CPython's `repr` of a bytes object, given the chosen quote
character code: backslash and the quote are escaped, tab/newline/carriage
return use their mnemonic escapes, other non-printable bytes become
lowercase \xNN, printable ASCII stands for itself. -/
def pyReprByte (quote : Nat) (c : Nat) : String :=
  if c = 92 then "\\\\"
  else if c = quote then "\\" ++ String.mk [Char.ofNat quote]
  else if c = 9 then "\\t"
  else if c = 10 then "\\n"
  else if c = 13 then "\\r"
  else if c < 32 ∨ c ≥ 127 then "\\x" ++ byteHex c
  else String.mk [Char.ofNat c]

/-- CPython's `str()` (= `repr`) of a bytes object: `b` followed by the
quoted escaped content; single quotes are used unless the bytes contain a
single quote and no double quote. -/
def pyReprBytes (b : Bytes) : String :=
  let quote : Nat := if b.contains 39 && !(b.contains 34) then 34 else 39
  "b" ++ String.mk [Char.ofNat quote] ++
    String.join (b.map (pyReprByte quote)) ++ String.mk [Char.ofNat quote]

/-- `str()` of a `PyVal`. -/
def PyVal.pyStr : PyVal → String
  | .pyBytes b => pyReprBytes b
  | .pyObj s _ => s

/-- An entry of `RNS.Transport.destinations` as probed by app.py: optional
`hash`, `display_name` and `app_data` attributes (absent attribute =
`none`; Python truthiness of the present value is checked separately). -/
structure TransportDest where
  hash : Option Bytes
  displayName : Option String
  appData : Option Bytes
deriving DecidableEq, Repr

/-- An inbound LXMF message as probed by `message_callback` (app.py lines
66-125): optional `source_hash`, `source`, `content` and `title`
attributes. -/
structure InboundMessage where
  sourceHash : Option PyVal
  source : Option PyVal
  content : Option PyVal
  title : Option PyVal
deriving DecidableEq, Repr

/-- The `msg_data` dict built by `message_callback` (app.py lines
119-125). -/
structure MsgData where
  senderName : String
  senderHash : String
  senderHashBytes : Option PyVal
  title : String
  content : String
deriving DecidableEq, Repr

/-- The app-data fallback of the sender-name lookup (app.py lines 84-88):
a truthy `app_data` that decodes as UTF-8 names the sender, anything else
leaves the name as it was ("Anonymous"). -/
def appDataName (d : TransportDest) : String :=
  match d.appData with
  | some ad =>
    if !ad.isEmpty then
      match utf8Decode ad with
      | some s => s
      | none => "Anonymous"
    else "Anonymous"
  | none => "Anonymous"

/-- The sender-name loop of `message_callback` (app.py lines 76-91): scan
`RNS.Transport.destinations` for the first entry whose `hash` attribute
equals the sender's hash bytes and stop there, taking its truthy
`display_name`, else its decodable truthy `app_data`, else keeping
"Anonymous"; no match at all also yields "Anonymous". -/
def resolveSenderName (senderBytes : Bytes) :
    List TransportDest → String
  | [] => "Anonymous"
  | d :: rest =>
    match d.hash with
    | some hb =>
      if hb = senderBytes then
        match d.displayName with
        | some dn => if dn ≠ "" then dn else appDataName d
        | none => appDataName d
      else resolveSenderName senderBytes rest
    | none => resolveSenderName senderBytes rest

/-- The content/title decoding of `message_callback` (app.py lines
97-117): a bytes attribute decodes as UTF-8 with `str()` of the bytes as
fallback, a truthy non-bytes attribute is rendered with `str()`, anything
else gives the empty string. -/
def decodeField (v : Option PyVal) : String :=
  match v with
  | none => ""
  | some (.pyBytes b) =>
    match utf8Decode b with
    | some s => s
    | none => pyReprBytes b
  | some (.pyObj s t) => if t then s else ""

/-- `sender_hash` extraction (app.py lines 70-74): the `source_hash`
attribute when present, else the `source` attribute, else `None`. -/
def senderHashOf (m : InboundMessage) : Option PyVal :=
  match m.sourceHash with
  | some v => some v
  | none => m.source

/-- The projection of one inbound message into the `msg_data` record
(app.py lines 66-125).  A non-bytes sender value never compares equal to a
`dest.hash` byte string, so the name loop leaves "Anonymous" for it, and
lacking a `.hex()` attribute it is rendered as `str(...)[:16]`. -/
def projectMessage (dests : List TransportDest) (m : InboundMessage) :
    MsgData :=
  let senderHash := senderHashOf m
  match senderHash with
  | some v =>
    if v.truthyVal then
      { senderName :=
          match v with
          | .pyBytes b => resolveSenderName b dests
          | .pyObj _ _ => "Anonymous"
        senderHash :=
          match v with
          | .pyBytes b => bytesHex b
          | .pyObj s _ => s.take 16
        senderHashBytes := some v
        title := decodeField m.title
        content := decodeField m.content }
    else
      { senderName := "Anonymous"
        senderHash := "Unknown"
        senderHashBytes := some v
        title := decodeField m.title
        content := decodeField m.content }
  | none =>
    { senderName := "Anonymous"
      senderHash := "Unknown"
      senderHashBytes := none
      title := decodeField m.title
      content := decodeField m.content }

/-- `message_callback` acting on the `messages_list` (app.py line 126):
`messages_list.insert(0, msg_data)` puts the new record at the head. -/
def messageCallback (dests : List TransportDest) (m : InboundMessage)
    (messagesList : List MsgData) : List MsgData :=
  projectMessage dests m :: messagesList

/-! ### Theorems about app.py -/

/-- C9: each inbound delivery callback invocation grows the message list by
exactly one record, placed at the head (newest first); every record that
was in the list is still there, unchanged, one position later — the
dispatcher treats the list as append-only. -/
theorem messageCallback_append_only (dests : List TransportDest)
    (m : InboundMessage) (l : List MsgData) :
    (messageCallback dests m l).length = l.length + 1 ∧
    (messageCallback dests m l).head? = some (projectMessage dests m) ∧
    (messageCallback dests m l).tail = l ∧
    ∀ i : Nat, (messageCallback dests m l).get? (i + 1) = l.get? i := by
  refine ⟨rfl, rfl, rfl, ?_⟩
  intro i
  rfl

end RNSFlet
